import Mathlib

/-
Verification of the fuzzy membership-function algebra: a shallow embedding
of src/fuzzy/combinators.py (and, where that module is absent from src,
definitions modelled from the specification), with theorems settling the
stated properties. Python floats are modelled as real numbers; Python
division, which raises ZeroDivisionError on a zero denominator, is
modelled as an Option-valued division returning none there.
-/

set_option linter.unusedVariables false

namespace Fuzzy

/-- Python real division: returns none (modelling ZeroDivisionError) when
the denominator is zero, otherwise the quotient. -/
noncomputable def pydiv (n d : ℝ) : Option ℝ :=
  if d = 0 then none else some (n / d)

/-- Error values raised by the combinators module; gamma_op raises
ValueError for an out-of-range weighting parameter. -/
inductive PyError where
  | valueError
  | zeroDivisionError
deriving DecidableEq

/-- Classic AND variant: `MIN(a, b)(x) = min(a(x), b(x))`. -/
def MIN (a b : ℝ → ℝ) : ℝ → ℝ := fun x => min (a x) (b x)

/-- Classic OR variant: `MAX(a, b)(x) = max(a(x), b(x))`. -/
def MAX (a b : ℝ → ℝ) : ℝ → ℝ := fun x => max (a x) (b x)

/-- AND variant: `product(a, b)(x) = a(x) * b(x)`. -/
def product (a b : ℝ → ℝ) : ℝ → ℝ := fun x => a x * b x

/-- OR variant: `bounded_sum(a, b)(x) = a(x) + b(x) - a(x) * b(x)`. -/
def bounded_sum (a b : ℝ → ℝ) : ℝ → ℝ := fun x =>
  a x + b x - a x * b x

/-- AND variant: `min(1, a(x) + b(x))`. -/
def lukasiewicz_AND (a b : ℝ → ℝ) : ℝ → ℝ := fun x => min 1 (a x + b x)

/-- OR variant: `max(0, a(x) + b(x) - 1)`. -/
def lukasiewicz_OR (a b : ℝ → ℝ) : ℝ → ℝ := fun x => max 0 (a x + b x - 1)

/-- AND variant: `a(x)b(x) / (2 - (a(x) + b(x) - a(x)b(x)))`, division as
in Python (error on zero denominator). -/
noncomputable def einstein_product (a b : ℝ → ℝ) : ℝ → Option ℝ := fun x =>
  pydiv (a x * b x) (2 - (a x + b x - a x * b x))

/-- OR variant: `(a(x) + b(x)) / (1 + a(x)b(x))`, division as in Python. -/
noncomputable def einstein_sum (a b : ℝ → ℝ) : ℝ → Option ℝ := fun x =>
  pydiv (a x + b x) (1 + a x * b x)

/-- The inner function f defined (but never returned) inside the source of
hamacher_product: `a(x)b(x) / (a(x) + b(x) - a(x)b(x))`. -/
noncomputable def hamacher_product_f (a b : ℝ → ℝ) : ℝ → Option ℝ := fun x =>
  pydiv (a x * b x) (a x + b x - a x * b x)

/-- The hamacher_product factory exactly as written in the source: the body
defines the inner function f but has no return statement, so the Python
function falls off the end and returns None for every pair of operands. -/
def hamacher_product (a b : ℝ → ℝ) : Option (ℝ → Option ℝ) := none

/-- OR variant: `(a(x) + b(x) - 2a(x)b(x)) / (1 - a(x)b(x))`, division as
in Python. -/
noncomputable def hamacher_sum (a b : ℝ → ℝ) : ℝ → Option ℝ := fun x =>
  pydiv (a x + b x - 2 * (a x * b x)) (1 - a x * b x)

/-- Compensatoric operator combining AND with OR by a weighing factor l:
`l * a(x)b(x) + (1 - l) * (a(x) + b(x) - a(x)b(x))`. -/
def lambda_op (a b : ℝ → ℝ) (l : ℝ) : ℝ → ℝ := fun x =>
  l * (a x * b x) + (1 - l) * (a x + b x - a x * b x)

/-- Compensatoric operator with weighing factor g: the factory raises
ValueError unless `0 <= g <= 1`, otherwise it returns the evaluator
`(a(x)b(x)) ** (1 - g) * ((1 - a(x))(1 - b(x))) ** g`. -/
noncomputable def gamma_op (a b : ℝ → ℝ) (g : ℝ) : Except PyError (ℝ → ℝ) :=
  if 0 ≤ g ∧ g ≤ 1 then
    Except.ok (fun x =>
      (a x * b x) ^ (1 - g) * ((1 - a x) * (1 - b x)) ^ g)
  else
    Except.error PyError.valueError

/-- Modelled from the spec: fuzzy/functions.py is not under src; the spec
and the claim both give `inv(f)(x) = 1 - f(x)` (standard fuzzy negation). -/
def inv (f : ℝ → ℝ) : ℝ → ℝ := fun x => 1 - f x

/-- Modelled from the spec: fuzzy/functions.py is not under src; the spec
says `linear(m, b)` computes `m * x + b` and then clamps the result into
the interval [0, 1]. -/
def linear (m b : ℝ) : ℝ → ℝ := fun x => max 0 (min 1 (m * x + b))

/-- Helper: pydiv is determined by numerator and denominator. -/
theorem pydiv_congr (n₁ d₁ n₂ d₂ : ℝ) (hn : n₁ = n₂) (hd : d₁ = d₂) :
    pydiv n₁ d₁ = pydiv n₂ d₂ := by rw [hn, hd]

/-- C1: the claim says every combinator factory returns a unary callable,
in particular that hamacher_product(a, b) returns a function and not None.
The source of hamacher_product defines the inner function f but never
returns it, so the factory returns None for every pair of operands,
contradicting the claim (and the documented contract of the module). -/
theorem hamacher_product_returns_none (a b : ℝ → ℝ) :
    hamacher_product a b = none := rfl

/-- C2: the claim says evaluating hamacher_product(a, b) where both
operands are 0 raises a DivisionByZero-class error. The intended inner
function does divide by zero there (first conjunct: with both operands
constantly 0 the denominator 0 + 0 - 0 * 0 is 0, so the evaluation is the
error value none), but because the factory itself returns None (second
conjunct), the actual call in the source raises TypeError, not a
DivisionByZero-class error. -/
theorem hamacher_product_f_at_zero_zero :
    hamacher_product_f (fun _ => 0) (fun _ => 0) 0 = none ∧
    hamacher_product (fun _ => 0) (fun _ => 0) = none := by
  constructor
  · simp [hamacher_product_f, pydiv]
  · rfl

/-- C3: constructing gamma_op with g outside [0, 1] raises ValueError (the
InvalidParameter-class error) at construction time, before any evaluation;
with g inside [0, 1] the construction succeeds and returns an evaluator. -/
theorem gamma_op_validation (a b : ℝ → ℝ) (g : ℝ) :
    (¬ (0 ≤ g ∧ g ≤ 1) → gamma_op a b g = Except.error PyError.valueError) ∧
    ((0 ≤ g ∧ g ≤ 1) → ∃ f, gamma_op a b g = Except.ok f) := by
  constructor
  · intro h
    simp only [gamma_op, if_neg h]
  · intro h
    refine ⟨fun x => (a x * b x) ^ (1 - g) * ((1 - a x) * (1 - b x)) ^ g, ?_⟩
    simp only [gamma_op, if_pos h]

/-- Witness for C3: construction with g = -0.1 fails with ValueError and
construction with g = 0.5 succeeds. -/
theorem gamma_op_validation_witness :
    gamma_op (fun x => x) (fun x => x) (-0.1) = Except.error PyError.valueError ∧
    ∃ f, gamma_op (fun x => x) (fun x => x) 0.5 = Except.ok f :=
  ⟨(gamma_op_validation (fun x => x) (fun x => x) (-0.1)).1 (by norm_num),
   (gamma_op_validation (fun x => x) (fun x => x) 0.5).2 (by norm_num)⟩

/-- C4: the claim asserts commutativity of MIN, MAX, product, bounded_sum,
einstein_sum, einstein_product, hamacher_sum and hamacher_product; each
formula is symmetric in its operands, so commutativity holds for the seven
factories that return their evaluator, and for the inner evaluator of
hamacher_product (the factory as written returns None, so there is no
value of hamacher_product(a, b)(x) in the actual code). -/
theorem combinators_commutative (a b : ℝ → ℝ) (x : ℝ) :
    MIN a b x = MIN b a x ∧ MAX a b x = MAX b a x ∧
    product a b x = product b a x ∧
    bounded_sum a b x = bounded_sum b a x ∧
    einstein_sum a b x = einstein_sum b a x ∧
    einstein_product a b x = einstein_product b a x ∧
    hamacher_sum a b x = hamacher_sum b a x ∧
    hamacher_product_f a b x = hamacher_product_f b a x := by
  refine ⟨min_comm _ _, max_comm _ _, mul_comm _ _, ?_, ?_, ?_, ?_, ?_⟩
  · simp only [bounded_sum]; ring
  · simp only [einstein_sum]
    exact pydiv_congr _ _ _ _ (by ring) (by ring)
  · simp only [einstein_product]
    exact pydiv_congr _ _ _ _ (by ring) (by ring)
  · simp only [hamacher_sum]
    exact pydiv_congr _ _ _ _ (by ring) (by ring)
  · simp only [hamacher_product_f]
    exact pydiv_congr _ _ _ _ (by ring) (by ring)

/-- C5: MIN and MAX are idempotent: for every operand function a and every
x, MIN(a, a)(x) = a(x) and MAX(a, a)(x) = a(x). -/
theorem MIN_MAX_idempotent (a : ℝ → ℝ) (x : ℝ) :
    MIN a a x = a x ∧ MAX a a x = a x :=
  ⟨min_self _, max_self _⟩

/-- C6: with both operand values in [0, 1] and neither equal to 0 or 1,
product(a, b)(x) is strictly less than MIN(a, b)(x). -/
theorem product_lt_MIN (a b : ℝ → ℝ) (x : ℝ)
    (ha0 : 0 ≤ a x) (ha1 : a x ≤ 1) (hb0 : 0 ≤ b x) (hb1 : b x ≤ 1)
    (haz : a x ≠ 0) (hao : a x ≠ 1) (hbz : b x ≠ 0) (hbo : b x ≠ 1) :
    product a b x < MIN a b x := by
  have hA : 0 < a x := ha0.lt_of_ne (Ne.symm haz)
  have hA1 : a x < 1 := ha1.lt_of_ne hao
  have hB : 0 < b x := hb0.lt_of_ne (Ne.symm hbz)
  have hB1 : b x < 1 := hb1.lt_of_ne hbo
  simp only [product, MIN, lt_min_iff]
  constructor
  · nlinarith
  · nlinarith

/-- Witness for C6: at constant operands 1/2 and 1/3, the product 1/6 is
strictly below the minimum 1/3. -/
theorem product_lt_MIN_witness :
    product (fun _ => (1:ℝ)/2) (fun _ => (1:ℝ)/3) 0 <
    MIN (fun _ => (1:ℝ)/2) (fun _ => (1:ℝ)/3) 0 :=
  product_lt_MIN (fun _ => (1:ℝ)/2) (fun _ => (1:ℝ)/3) 0
    (by norm_num) (by norm_num) (by norm_num) (by norm_num)
    (by norm_num) (by norm_num) (by norm_num) (by norm_num)

/-- C7: De Morgan-style duality of product and bounded_sum: with both
operand values in [0, 1], bounded_sum(a, b)(x) equals
1 - product(inv(a), inv(b))(x); the identity is exact over the reals. -/
theorem bounded_sum_demorgan_product (a b : ℝ → ℝ) (x : ℝ)
    (ha0 : 0 ≤ a x) (ha1 : a x ≤ 1) (hb0 : 0 ≤ b x) (hb1 : b x ≤ 1) :
    bounded_sum a b x = 1 - product (inv a) (inv b) x := by
  simp only [bounded_sum, product, inv]
  ring

/-- Witness for C7: the duality at constant operands 1/2 and 1/3. -/
theorem bounded_sum_demorgan_product_witness :
    bounded_sum (fun _ => (1:ℝ)/2) (fun _ => (1:ℝ)/3) 0 =
    1 - product (inv (fun _ => (1:ℝ)/2)) (inv (fun _ => (1:ℝ)/3)) 0 :=
  bounded_sum_demorgan_product (fun _ => (1:ℝ)/2) (fun _ => (1:ℝ)/3) 0
    (by norm_num) (by norm_num) (by norm_num) (by norm_num)

/-- C8: with both operand values in [0, 1], the denominator of einstein_sum
is at least 1, so the division never fails: einstein_sum(a, b)(x) is
defined (a some value, never the ZeroDivisionError none). -/
theorem einstein_sum_defined (a b : ℝ → ℝ) (x : ℝ)
    (ha0 : 0 ≤ a x) (ha1 : a x ≤ 1) (hb0 : 0 ≤ b x) (hb1 : b x ≤ 1) :
    1 ≤ 1 + a x * b x ∧ (einstein_sum a b x).isSome = true := by
  have hab : 0 ≤ a x * b x := mul_nonneg ha0 hb0
  have hd : (1:ℝ) + a x * b x ≠ 0 := by nlinarith
  refine ⟨by linarith, ?_⟩
  simp only [einstein_sum, pydiv]
  rw [if_neg hd]
  rfl

/-- Witness for C8: einstein_sum at constant operands 1/2 and 1/3. -/
theorem einstein_sum_defined_witness :
    1 ≤ 1 + ((fun _ => (1:ℝ)/2) 0) * ((fun _ => (1:ℝ)/3) 0) ∧
    (einstein_sum (fun _ => (1:ℝ)/2) (fun _ => (1:ℝ)/3) 0).isSome = true :=
  einstein_sum_defined (fun _ => (1:ℝ)/2) (fun _ => (1:ℝ)/3) 0
    (by norm_num) (by norm_num) (by norm_num) (by norm_num)

/-- C9: the linear membership-function factory clamps its output into the
unit interval: for all m, b and every x, 0 <= linear(m, b)(x) <= 1. -/
theorem linear_in_unit_interval (m b x : ℝ) :
    0 ≤ linear m b x ∧ linear m b x ≤ 1 := by
  refine ⟨le_max_left 0 _, ?_⟩
  simp only [linear]
  exact max_le (by norm_num) (min_le_left _ _)

/-- C10: for a weight l in [0, 1] and operand values in [0, 1], lambda_op
stays in the unit interval: it is a convex combination of the product
value and the bounded-sum value, both of which lie in [0, 1]. -/
theorem lambda_op_in_unit_interval (a b : ℝ → ℝ) (l x : ℝ)
    (hl0 : 0 ≤ l) (hl1 : l ≤ 1)
    (ha0 : 0 ≤ a x) (ha1 : a x ≤ 1) (hb0 : 0 ≤ b x) (hb1 : b x ≤ 1) :
    0 ≤ lambda_op a b l x ∧ lambda_op a b l x ≤ 1 := by
  have h1 : 0 ≤ a x * b x := mul_nonneg ha0 hb0
  have h2 : 0 ≤ (1 - a x) * (1 - b x) :=
    mul_nonneg (by linarith) (by linarith)
  have h3 : 0 ≤ a x * (1 - b x) := mul_nonneg ha0 (by linarith)
  have h4 : 0 ≤ b x * (1 - a x) := mul_nonneg hb0 (by linarith)
  simp only [lambda_op]
  constructor
  · nlinarith [mul_nonneg hl0 h1, mul_nonneg (by linarith : (0:ℝ) ≤ 1 - l) h3,
      mul_nonneg (by linarith : (0:ℝ) ≤ 1 - l) h4,
      mul_nonneg (by linarith : (0:ℝ) ≤ 1 - l) h1]
  · nlinarith [mul_nonneg hl0 h2, mul_nonneg hl0 h3, mul_nonneg hl0 h4,
      mul_nonneg (by linarith : (0:ℝ) ≤ 1 - l) h2]

/-- Witness for C10: lambda_op at weight 1/2 and constant operands 1/2 and
1/3 lies in the unit interval. -/
theorem lambda_op_in_unit_interval_witness :
    0 ≤ lambda_op (fun _ => (1:ℝ)/2) (fun _ => (1:ℝ)/3) (1/2) 0 ∧
    lambda_op (fun _ => (1:ℝ)/2) (fun _ => (1:ℝ)/3) (1/2) 0 ≤ 1 :=
  lambda_op_in_unit_interval (fun _ => (1:ℝ)/2) (fun _ => (1:ℝ)/3) (1/2) 0
    (by norm_num) (by norm_num) (by norm_num) (by norm_num)
    (by norm_num) (by norm_num)

end Fuzzy
